import Mathlib

/-!
Verification development for the GitHub auto-upload tool (src/app.py).

The program is embedded shallowly:

* ` Event ` records every external effect of the program: a VCS subprocess
  invocation (` cmd `), a subprocess started with data piped on stdin
  (` pipe `), and a console print (` log `).
* The local VCS tool is an external collaborator; the pipeline is therefore
  parametrised by an oracle ` Git S ` giving each command a result and a
  state transition.  A concrete oracle ` pyGit ` over ` GitState ` supplies
  the collaborator semantics described by the specification.
* ` setup_and_push_repo `, ` setup_git_credentials_helper `,
  ` create_github_repo ` and ` mainCore ` transliterate the corresponding
  Python functions, returning their result together with the final oracle
  state and the full event trace.
-/

/-- One observable effect of the program: a VCS subprocess invocation with
its argument vector, a subprocess receiving data piped on stdin, or a
console print. -/
inductive Event where
  | cmd (args : List String)
  | pipe (args : List String) (input : String)
  | log (msg : String)
deriving DecidableEq, Repr

/-- External VCS collaborator: a stateful oracle answering each command
with a success flag and an output string (the stripped stdout on success,
the stripped stderr on failure, as returned by ` run_git_command `), plus
a flag telling whether spawning the credential subprocess succeeds. -/
structure Git (S : Type) where
  run : S → List String → (Bool × String) × S
  popenOk : S → Bool

/-- Embedding of ` run_git_command ` (src/app.py lines 45-58): run one git
command, return its (success, output) pair, the new collaborator state and
the single invocation event. -/
def run_git_command {S : Type} (g : Git S) (command : List String) (s : S) :
    (Bool × String) × S × List Event :=
  let ((ok, out), s1) := g.run s command
  ((ok, out), s1, [Event.cmd command])

/-- Python ` needle in hay ` substring test, on character lists
(structurally recursive so that it evaluates in the kernel). -/
def str_in_aux (needle : List Char) : List Char → Bool
  | [] => needle.isEmpty
  | c :: cs => needle.isPrefixOf (c :: cs) || str_in_aux needle cs

/-- Python ` needle in hay ` substring test on strings. -/
def str_in (needle hay : String) : Bool :=
  str_in_aux needle.data hay.data

/-- Python ` s.startswith(pre) `. -/
def startswith (s pre : String) : Bool :=
  pre.data.isPrefixOf s.data

/-- Python ` str.strip() `: drop leading and trailing whitespace
(structurally recursive model of the library function). -/
def str_strip (s : String) : String :=
  String.mk (((s.data.dropWhile Char.isWhitespace).reverse.dropWhile
    Char.isWhitespace).reverse)

/-- Split a path into its nonempty ` / `-separated components
(structurally recursive model of path splitting). -/
def splitPathAux (acc : List Char) : List Char → List String
  | [] => [String.mk acc.reverse]
  | c :: cs => if c = '/' then String.mk acc.reverse :: splitPathAux [] cs
               else splitPathAux (c :: acc) cs

/-- Nonempty components of a ` / `-separated path. -/
def splitPath (p : String) : List String :=
  (splitPathAux [] p.data).filter (fun c => c ≠ "")

/-- Length of the longest common prefix of two component lists. -/
def commonPrefixLen : List String → List String → Nat
  | a :: as, b :: bs => if a = b then commonPrefixLen as bs + 1 else 0
  | _, _ => 0

/-- Model of Python ` os.path.relpath(path, start) ` for normalized
absolute paths: strip the common component prefix, go up once per
remaining component of ` start `, then descend into the remainder of
` path `. -/
def os_path_relpath (path start : String) : String :=
  let p := splitPath path
  let s := splitPath start
  let c := commonPrefixLen p s
  let parts := List.replicate (s.length - c) ".." ++ p.drop c
  if parts = [] then "." else String.intercalate "/" parts

/-- The credential description piped on stdin to ` git credential approve `
(src/app.py line 75). -/
def credential_input (token : String) : String :=
  "protocol=https\nhost=github.com\nusername=x-access-token\npassword="
    ++ token ++ "\n\n"

/-- Embedding of ` setup_git_credentials_helper ` (src/app.py lines 60-79):
configure the in-memory cache helper, then feed the credential to
` git credential approve ` through a stdin pipe. -/
def setup_git_credentials_helper {S : Type} (g : Git S) (token : String)
    (directory : String) (s : S) : Bool × S × List Event :=
  let ((ok, _), s1, ev1) :=
    run_git_command g ["git", "config", "--local", "credential.helper", "cache"] s
  if !ok then (false, s1, ev1)
  else if g.popenOk s1 then
    (true, s1,
      ev1 ++ [Event.pipe ["git", "credential", "approve"] (credential_input token)])
  else (false, s1, ev1)

/-- Sequence two pipeline steps: on failure of the first, stop with its
state and trace (the early ` return False ` of the source); on success,
continue and concatenate the traces. -/
def andThen {S : Type} (r : Bool × S × List Event)
    (k : S → Bool × S × List Event) : Bool × S × List Event :=
  match r with
  | (true, s, ev) =>
    match k s with
    | (ok, s1, ev1) => (ok, s1, ev ++ ev1)
  | (false, s, ev) => (false, s, ev)

/-- Stage 1 of ` setup_and_push_repo ` (src/app.py lines 97-108): detect a
working tree, otherwise initialize one. -/
def stageEnsureInit {S : Type} (g : Git S) (s : S) : Bool × S × List Event :=
  let ((is_git_repo, _), s1, ev1) :=
    run_git_command g ["git", "rev-parse", "--is-inside-work-tree"] s
  if !is_git_repo then
    let ((ok, out), s2, ev2) := run_git_command g ["git", "init"] s1
    if !ok then
      (false, s2, ev1 ++ ev2 ++ [Event.log ("❌ Failed to initialize git repository: " ++ out)])
    else (true, s2, ev1 ++ ev2 ++ [Event.log "✅ Git repository initialized"])
  else (true, s1, ev1 ++ [Event.log "ℹ️ Git repository already initialized"])

/-- Stage 2 of ` setup_and_push_repo ` (src/app.py lines 110-125): add the
remote ` origin `; if that fails and a remote named origin is already
listed, rewrite its URL instead. -/
def stageEnsureRemote {S : Type} (g : Git S) (repo_url : String) (s : S) :
    Bool × S × List Event :=
  let ((ok, output), s1, ev1) :=
    run_git_command g ["git", "remote", "add", "origin", repo_url] s
  if !ok then
    let ((_, remote_output), s2, ev2) := run_git_command g ["git", "remote", "-v"] s1
    if str_in "origin" remote_output then
      let ((ok2, _), s3, ev3) :=
        run_git_command g ["git", "remote", "set-url", "origin", repo_url] s2
      if !ok2 then
        (false, s3, ev1 ++ ev2 ++ ev3 ++ [Event.log ("❌ Failed to update remote: " ++ output)])
      else (true, s3, ev1 ++ ev2 ++ ev3 ++ [Event.log "✅ Remote updated"])
    else (false, s2, ev1 ++ ev2 ++ [Event.log ("❌ Failed to add remote: " ++ output)])
  else (true, s1, ev1 ++ [Event.log "✅ Remote added"])

/-- Stage 3 of ` setup_and_push_repo ` (src/app.py lines 127-134): set the
committer identity keys only when their current value is blank. -/
def stageEnsureIdentity {S : Type} (g : Git S) (s : S) : Bool × S × List Event :=
  let ((_, username_output), s1, ev1) := run_git_command g ["git", "config", "user.name"] s
  let (s2, ev2) :=
    if str_strip username_output = "" then
      let (_, s3, ev3) :=
        run_git_command g ["git", "config", "user.name", "GitHub Auto Uploader"] s1
      (s3, ev1 ++ ev3)
    else (s1, ev1)
  let ((_, email_output), s4, ev4) := run_git_command g ["git", "config", "user.email"] s2
  let (s5, ev5) :=
    if str_strip email_output = "" then
      let (_, s6, ev6) :=
        run_git_command g ["git", "config", "user.email", "auto-uploader@example.com"] s4
      (s6, ev4 ++ ev6)
    else (s4, ev4)
  (true, s5, ev2 ++ ev5)

/-- Stage 4 of ` setup_and_push_repo ` (src/app.py lines 136-140): when a
token is supplied, register it with the credential helper; a failure only
prints a warning and never aborts the pipeline. -/
def stageCredentials {S : Type} (g : Git S) (token : String)
    (abs_directory : String) (s : S) : Bool × S × List Event :=
  if token ≠ "" then
    let (setup_success, s1, ev1) := setup_git_credentials_helper g token abs_directory s
    if !setup_success then
      (true, s1, ev1 ++ [Event.log "⚠️ Warning: Failed to setup credentials helper. You may be prompted for credentials."])
    else (true, s1, ev1)
  else (true, s, [])

/-- Stage 5 of ` setup_and_push_repo ` (src/app.py lines 142-147): stage
every file. -/
def stageAddAll {S : Type} (g : Git S) (s : S) : Bool × S × List Event :=
  let ((ok, out), s1, ev1) := run_git_command g ["git", "add", "."] s
  if !ok then (false, s1, ev1 ++ [Event.log ("❌ Failed to add files: " ++ out)])
  else (true, s1, ev1 ++ [Event.log "✅ Files added to staging area"])

/-- Stage 6 of ` setup_and_push_repo ` (src/app.py lines 149-155): if the
scripts own absolute path is a file and starts with the target directory
string, unstage its relative path. -/
def stageSelfExclude {S : Type} (g : Git S) (script_path : String)
    (script_isfile : Bool) (abs_directory : String) (s : S) : Bool × S × List Event :=
  if script_isfile && startswith script_path abs_directory then
    let rel_script_path := os_path_relpath script_path abs_directory
    let (_, s1, ev1) := run_git_command g ["git", "reset", "HEAD", rel_script_path] s
    (true, s1,
      [Event.log "⚠️ Detected script in repository. Excluding it from commit to prevent token exposure."] ++ ev1)
  else (true, s, [])

/-- Stage 7 of ` setup_and_push_repo ` (src/app.py lines 157-165): create
the single commit. -/
def stageCommit {S : Type} (g : Git S) (s : S) : Bool × S × List Event :=
  let ((ok, out), s1, ev1) :=
    run_git_command g ["git", "commit", "-m", "Initial commit from auto-upload script"] s
  if !ok then (false, s1, ev1 ++ [Event.log ("❌ Failed to commit: " ++ out)])
  else (true, s1, ev1 ++ [Event.log "✅ Changes committed"])

/-- Stage 8 of ` setup_and_push_repo ` (src/app.py lines 167-173): create
and switch to the requested branch unless it is a conventional default. -/
def stageBranch {S : Type} (g : Git S) (branch : String) (s : S) :
    Bool × S × List Event :=
  if branch ≠ "main" && branch ≠ "master" then
    let ((ok, out), s1, ev1) := run_git_command g ["git", "checkout", "-b", branch] s
    if !ok then (false, s1, ev1 ++ [Event.log ("❌ Failed to create branch: " ++ out)])
    else (true, s1, ev1 ++ [Event.log ("✅ Created and switched to branch " ++ branch)])
  else (true, s, [])

/-- Stage 9 of ` setup_and_push_repo ` (src/app.py lines 175-185): push the
branch to origin with upstream tracking. -/
def stagePush {S : Type} (g : Git S) (branch : String) (s : S) :
    Bool × S × List Event :=
  let ((ok, out), s1, ev1) :=
    run_git_command g ["git", "push", "-u", "origin", branch] s
  if !ok then (false, s1, ev1 ++ [Event.log ("❌ Failed to push to GitHub: " ++ out)])
  else (true, s1, ev1 ++ [Event.log ("✅ Successfully pushed to GitHub branch " ++ branch)])

/-- Stages 1-3 of the pipeline (src/app.py lines 97-134): ensure a working
tree, ensure the origin remote, ensure a committer identity. -/
def stages123 {S : Type} (g : Git S) (repo_url : String) (s : S) :
    Bool × S × List Event :=
  andThen (stageEnsureInit g s) (fun s1 =>
    andThen (stageEnsureRemote g repo_url s1) (fun s2 =>
      stageEnsureIdentity g s2))

/-- Embedding of ` setup_and_push_repo ` (src/app.py lines 81-185).  The
` directory ` argument is taken already in absolute form (the source
applies ` os.path.abspath ` first); ` script_path ` is the absolute path of
the invoking script (` sys.argv[0] `) and ` script_isfile ` the result of
` os.path.isfile ` on it. -/
def setup_and_push_repo {S : Type} (g : Git S) (repo_url abs_directory branch token
    script_path : String) (script_isfile : Bool) (s : S) : Bool × S × List Event :=
  andThen (stages123 g repo_url s) (fun s3 =>
    andThen (stageCredentials g token abs_directory s3) (fun s4 =>
      andThen (stageAddAll g s4) (fun s5 =>
        andThen (stageSelfExclude g script_path script_isfile abs_directory s5) (fun s6 =>
          andThen (stageCommit g s6) (fun s7 =>
            andThen (stageBranch g branch s7) (fun s8 =>
              stagePush g branch s8))))))

/-- JSON body of the provider response, with the fields the program
reads (absent keys are ` none `). -/
structure RespBody where
  message : Option String
  clone_url : Option String
  html_url : Option String
deriving DecidableEq, Repr

/-- Provider HTTP response: status code and decoded JSON body. -/
structure HttpResponse where
  status_code : Nat
  body : RespBody
deriving DecidableEq, Repr

/-- Embedding of ` create_github_repo ` (src/app.py lines 10-43): the
repository data is returned exactly on status 201; otherwise the error
message from the body (default ` Unknown error `) is printed and ` none `
returned. -/
def create_github_repo (response : HttpResponse) (repo_name : String) :
    Option RespBody × List Event :=
  if response.status_code = 201 then
    (some response.body,
      [Event.log ("✅ Repository " ++ repo_name ++ " created successfully!")])
  else
    (none,
      [Event.log ("❌ Failed to create repository. Status code: " ++ toString response.status_code),
       Event.log ("Error message: " ++ (response.body.message.getD "Unknown error"))])

/-- Embedding of the non-interactive tail of ` main ` (src/app.py lines
237-255): create the remote repository, stop with exit code 1 when that
fails or when the body lacks a usable clone URL, otherwise run the publish
pipeline and map its boolean to the process exit code. -/
def mainCore {S : Type} (g : Git S) (response : HttpResponse)
    (repo_name abs_directory branch token script_path : String)
    (script_isfile : Bool) (s : S) : Nat × S × List Event :=
  let (repo_data, ev0) := create_github_repo response repo_name
  match repo_data with
  | none => (1, s, ev0)
  | some data =>
    match data.clone_url with
    | none => (1, s, ev0 ++ [Event.log "❌ Could not get repository URL"])
    | some repo_url =>
      if repo_url = "" then (1, s, ev0 ++ [Event.log "❌ Could not get repository URL"])
      else
        let (success, s1, ev1) :=
          setup_and_push_repo g repo_url abs_directory branch token script_path script_isfile s
        if success then
          (0, s1, ev0 ++ ev1 ++ [Event.log "✨ Success! Your files have been uploaded to GitHub."])
        else (1, s1, ev0 ++ ev1 ++ [Event.log "❌ Failed to upload files to GitHub."])

/-- Modelled from the spec: observable state of the external VCS
collaborator (spec section 6, Local VCS invocations, and the
` LocalRepoState ` of section 3) — working-tree flag, the origin remote
URL, the two identity keys, the credential-helper configuration, the
working-tree files, the staged paths, the recorded commits, the current
branch and the performed pushes. -/
structure GitState where
  initialized : Bool
  originUrl : Option String
  userName : Option String
  userEmail : Option String
  credentialHelper : Option String
  workTree : List String
  index : List String
  commits : List (String × List String)
  currentBranch : String
  pushed : List (String × String)
deriving DecidableEq, Repr

/-- The listing printed by ` git remote -v ` when an origin remote is
configured. -/
def remoteVOutput (st : GitState) : String :=
  match st.originUrl with
  | some u => "origin" ++ ("\t" ++ u ++ " (fetch)\norigin\t" ++ u ++ " (push)")
  | none => ""

/-- Modelled from the spec: semantics of each local VCS invocation the
program issues (spec section 6) — initialize working tree, query whether
the path is a working tree, add or rewrite the origin remote, get and set
the two identity keys, configure the cache credential helper, stage all
files, unstage one path, commit the staged set, create and switch branch,
and push to origin. -/
def gitStep (st : GitState) (args : List String) : (Bool × String) × GitState :=
  match args with
  | ["git", "rev-parse", "--is-inside-work-tree"] =>
    if st.initialized then ((true, "true"), st)
    else ((false, "fatal: not a git repository"), st)
  | ["git", "init"] => ((true, "Initialized empty Git repository"), { st with initialized := true })
  | ["git", "remote", "add", "origin", url] =>
    match st.originUrl with
    | some _ => ((false, "error: remote origin already exists."), st)
    | none => ((true, ""), { st with originUrl := some url })
  | ["git", "remote", "-v"] => ((true, remoteVOutput st), st)
  | ["git", "remote", "set-url", "origin", url] =>
    match st.originUrl with
    | some _ => ((true, ""), { st with originUrl := some url })
    | none => ((false, "error: No such remote origin"), st)
  | ["git", "config", "user.name"] =>
    match st.userName with
    | some v => ((true, v), st)
    | none => ((false, ""), st)
  | ["git", "config", "user.name", v] => ((true, ""), { st with userName := some v })
  | ["git", "config", "user.email"] =>
    match st.userEmail with
    | some v => ((true, v), st)
    | none => ((false, ""), st)
  | ["git", "config", "user.email", v] => ((true, ""), { st with userEmail := some v })
  | ["git", "config", "--local", "credential.helper", v] =>
    ((true, ""), { st with credentialHelper := some v })
  | ["git", "add", "."] => ((true, ""), { st with index := st.workTree })
  | ["git", "reset", "HEAD", p] =>
    ((true, ""), { st with index := st.index.filter (fun q => q ≠ p) })
  | ["git", "commit", "-m", m] =>
    if st.index.isEmpty then ((false, "nothing to commit"), st)
    else ((true, ""), { st with commits := (m, st.index) :: st.commits })
  | ["git", "checkout", "-b", b] => ((true, ""), { st with currentBranch := b })
  | ["git", "push", "-u", "origin", b] =>
    match st.originUrl with
    | some _ => ((true, ""), { st with pushed := ("origin", b) :: st.pushed })
    | none => ((false, "fatal: origin does not appear to be a git repository"), st)
  | _ => ((false, "unsupported command"), st)

/-- The concrete collaborator: ` gitStep ` semantics, credential
subprocess spawning available. -/
def pyGit : Git GitState :=
  { run := fun s a => gitStep s a, popenOk := fun _ => true }

/-- Recognizes the credential-registration event (the stdin-piped
` git credential approve ` subprocess). -/
def isCredApprove : Event → Bool
  | Event.pipe _ _ => true
  | _ => false

/-- Recognizes the staging invocation ` git add ... `. -/
def isStageAll (e : Event) : Bool :=
  match e with
  | Event.cmd args => decide (args.take 2 = ["git", "add"])
  | _ => false

/-- Recognizes the push invocation ` git push ... `. -/
def isPushCmd (e : Event) : Bool :=
  match e with
  | Event.cmd args => decide (args.take 2 = ["git", "push"])
  | _ => false

/-- Recognizes any VCS operation: a subprocess invocation, with or without
piped stdin (console prints are not VCS operations). -/
def isVcsOp : Event → Bool
  | Event.cmd _ => true
  | Event.pipe _ _ => true
  | Event.log _ => false


/-- An event that is neither the credential registration, nor the staging
invocation, nor the push invocation. -/
def inert (e : Event) : Bool :=
  !(isCredApprove e || isStageAll e || isPushCmd e)

/-- Erase the data piped on stdin from a trace, keeping everything else:
two traces with equal erasure differ at most in piped credential data. -/
def eraseCred (tr : List Event) : List Event :=
  tr.map (fun e =>
    match e with
    | Event.pipe a _ => Event.pipe a ""
    | e => e)

/-- The temporal property claimed of a trace: no VCS operation stands
strictly between the credential-registration event and the push
invocation. -/
def noOtherVcsBetween (tr : List Event) : Prop :=
  ∀ i j k e1 e2 e, tr.get? i = some e1 → isCredApprove e1 = true →
    tr.get? j = some e2 → isPushCmd e2 = true →
    i < k → k < j → tr.get? k = some e → isVcsOp e = false

/-- A fresh local directory holding one file ` a.txt `: no working tree,
no remote, no identity, nothing staged, no commits. -/
def freshState : GitState :=
  { initialized := false, originUrl := none, userName := none, userEmail := none,
    credentialHelper := none, workTree := ["a.txt"], index := [], commits := [],
    currentBranch := "main", pushed := [] }

/-! ## Basic lemmas about the helper functions -/

/-- A list is a boolean prefix of itself followed by anything. -/
theorem isPrefixOf_self_append (l t : List Char) : l.isPrefixOf (l ++ t) = true := by
  induction l with
  | nil => simp [List.isPrefixOf]
  | cons c cs ih => simp [List.isPrefixOf, ih]

/-- A boolean prefix is in particular a substring. -/
theorem str_in_aux_of_isPrefixOf (n h : List Char) (hp : n.isPrefixOf h = true) :
    str_in_aux n h = true := by
  cases h with
  | nil =>
    cases n with
    | nil => simp [str_in_aux]
    | cons c cs => simp [List.isPrefixOf] at hp
  | cons c cs => simp [str_in_aux, hp]

/-- The Python substring test ` "origin" in s ` succeeds on any string that
begins with ` origin `. -/
theorem str_in_origin_append (r : String) : str_in "origin" ("origin" ++ r) = true := by
  unfold str_in
  rw [String.data_append]
  exact str_in_aux_of_isPrefixOf _ _ (isPrefixOf_self_append _ _)

/-- ` startswith ` succeeds on any extension of the prefix. -/
theorem startswith_append (d x : String) : startswith (d ++ x) d = true := by
  unfold startswith
  rw [String.data_append]
  exact isPrefixOf_self_append _ _

/-- Sequencing after a successful step: run the continuation and
concatenate the traces. -/
theorem andThen_true {S : Type} {r : Bool × S × List Event} {k : S → Bool × S × List Event}
    (h : r.1 = true) :
    andThen r k = ((k r.2.1).1, (k r.2.1).2.1, r.2.2 ++ (k r.2.1).2.2) := by
  rcases r with ⟨b, s, tr⟩
  simp only at h
  subst h
  rcases hk : k s with ⟨ok, s1, ev1⟩
  simp [andThen, hk]

/-- Sequencing after a failed step stops with its result. -/
theorem andThen_false {S : Type} {r : Bool × S × List Event} {k : S → Bool × S × List Event}
    (h : r.1 = false) : andThen r k = r := by
  rcases r with ⟨b, s, tr⟩
  simp only at h
  subst h
  simp [andThen]

/-! ## Reduction lemmas for the concrete collaborator on each command
shape the program issues -/

/-- ` git rev-parse --is-inside-work-tree ` under ` pyGit `. -/
theorem pyGit_revparse (st : GitState) :
    pyGit.run st ["git", "rev-parse", "--is-inside-work-tree"] =
      (if st.initialized then ((true, "true"), st)
       else ((false, "fatal: not a git repository"), st)) := rfl

/-- ` git init ` under ` pyGit `. -/
theorem pyGit_init (st : GitState) :
    pyGit.run st ["git", "init"] =
      ((true, "Initialized empty Git repository"), { st with initialized := true }) := rfl

/-- ` git remote add origin <url> ` under ` pyGit `. -/
theorem pyGit_remote_add (st : GitState) (url : String) :
    pyGit.run st ["git", "remote", "add", "origin", url] =
      (match st.originUrl with
       | some _ => ((false, "error: remote origin already exists."), st)
       | none => ((true, ""), { st with originUrl := some url })) := rfl

/-- ` git remote -v ` under ` pyGit `. -/
theorem pyGit_remote_v (st : GitState) :
    pyGit.run st ["git", "remote", "-v"] = ((true, remoteVOutput st), st) := rfl

/-- ` git remote set-url origin <url> ` under ` pyGit `. -/
theorem pyGit_set_url (st : GitState) (url : String) :
    pyGit.run st ["git", "remote", "set-url", "origin", url] =
      (match st.originUrl with
       | some _ => ((true, ""), { st with originUrl := some url })
       | none => ((false, "error: No such remote origin"), st)) := rfl

/-- Reading ` user.name ` under ` pyGit `. -/
theorem pyGit_get_name (st : GitState) :
    pyGit.run st ["git", "config", "user.name"] =
      (match st.userName with
       | some v => ((true, v), st)
       | none => ((false, ""), st)) := rfl

/-- Writing ` user.name ` under ` pyGit `. -/
theorem pyGit_set_name (st : GitState) (v : String) :
    pyGit.run st ["git", "config", "user.name", v] =
      ((true, ""), { st with userName := some v }) := rfl

/-- Reading ` user.email ` under ` pyGit `. -/
theorem pyGit_get_email (st : GitState) :
    pyGit.run st ["git", "config", "user.email"] =
      (match st.userEmail with
       | some v => ((true, v), st)
       | none => ((false, ""), st)) := rfl

/-- Writing ` user.email ` under ` pyGit `. -/
theorem pyGit_set_email (st : GitState) (v : String) :
    pyGit.run st ["git", "config", "user.email", v] =
      ((true, ""), { st with userEmail := some v }) := rfl

/-- Configuring the credential helper under ` pyGit `. -/
theorem pyGit_cred_helper (st : GitState) (v : String) :
    pyGit.run st ["git", "config", "--local", "credential.helper", v] =
      ((true, ""), { st with credentialHelper := some v }) := rfl

/-- ` git add . ` under ` pyGit `. -/
theorem pyGit_add (st : GitState) :
    pyGit.run st ["git", "add", "."] = ((true, ""), { st with index := st.workTree }) := rfl

/-- ` git reset HEAD <p> ` under ` pyGit `. -/
theorem pyGit_reset (st : GitState) (p : String) :
    pyGit.run st ["git", "reset", "HEAD", p] =
      ((true, ""), { st with index := st.index.filter (fun q => q ≠ p) }) := rfl

/-- ` git commit -m <m> ` under ` pyGit `. -/
theorem pyGit_commit (st : GitState) (m : String) :
    pyGit.run st ["git", "commit", "-m", m] =
      (if st.index.isEmpty then ((false, "nothing to commit"), st)
       else ((true, ""), { st with commits := (m, st.index) :: st.commits })) := rfl

/-- ` git checkout -b <b> ` under ` pyGit `. -/
theorem pyGit_checkout (st : GitState) (b : String) :
    pyGit.run st ["git", "checkout", "-b", b] =
      ((true, ""), { st with currentBranch := b }) := rfl

/-- Spawning the credential subprocess succeeds under ` pyGit `. -/
theorem pyGit_popenOk (st : GitState) : pyGit.popenOk st = true := rfl

/-- ` git push -u origin <b> ` under ` pyGit `. -/
theorem pyGit_push (st : GitState) (b : String) :
    pyGit.run st ["git", "push", "-u", "origin", b] =
      (match st.originUrl with
       | some _ => ((true, ""), { st with pushed := ("origin", b) :: st.pushed })
       | none => ((false, "fatal: origin does not appear to be a git repository"), st)) := rfl

/-! ## Characterization of each pipeline stage under ` pyGit ` -/

/-- Stripping the empty string yields the empty string. -/
theorem str_strip_empty : str_strip "" = "" := rfl

/-- Stage 1 always succeeds and leaves a working tree in place, whether or
not one existed. -/
theorem stage1_eq (st : GitState) :
    stageEnsureInit pyGit st =
      (true, { st with initialized := true },
        if st.initialized then
          [Event.cmd ["git", "rev-parse", "--is-inside-work-tree"],
           Event.log "ℹ️ Git repository already initialized"]
        else
          [Event.cmd ["git", "rev-parse", "--is-inside-work-tree"],
           Event.cmd ["git", "init"],
           Event.log "✅ Git repository initialized"]) := by
  rcases st with ⟨init, orig, un, ue, ch, wt, idx, cs, cb, pu⟩
  cases init <;> rfl

/-- Stage 2 always succeeds and leaves the origin remote at the given URL,
whether or not an origin remote existed before. -/
theorem stage2_eq (st : GitState) (url : String) :
    stageEnsureRemote pyGit url st =
      (true, { st with originUrl := some url },
        match st.originUrl with
        | none => [Event.cmd ["git", "remote", "add", "origin", url],
                   Event.log "✅ Remote added"]
        | some _ => [Event.cmd ["git", "remote", "add", "origin", url],
                     Event.cmd ["git", "remote", "-v"],
                     Event.cmd ["git", "remote", "set-url", "origin", url],
                     Event.log "✅ Remote updated"]) := by
  rcases st with ⟨init, orig, un, ue, ch, wt, idx, cs, cb, pu⟩
  cases orig with
  | none => rfl
  | some u =>
    simp only [stageEnsureRemote, run_git_command, pyGit_remote_add, pyGit_remote_v,
      pyGit_set_url, remoteVOutput, str_in_origin_append]
    rfl

/-- Stage 3 always succeeds; it overwrites exactly the identity keys whose
stripped current value is empty, with the fixed placeholder values. -/
theorem stage3_eq (st : GitState) :
    stageEnsureIdentity pyGit st =
      (true,
       { st with
         userName := if str_strip (st.userName.getD "") = "" then
           some "GitHub Auto Uploader" else st.userName,
         userEmail := if str_strip (st.userEmail.getD "") = "" then
           some "auto-uploader@example.com" else st.userEmail },
       (if str_strip (st.userName.getD "") = "" then
          [Event.cmd ["git", "config", "user.name"],
           Event.cmd ["git", "config", "user.name", "GitHub Auto Uploader"]]
        else [Event.cmd ["git", "config", "user.name"]]) ++
       (if str_strip (st.userEmail.getD "") = "" then
          [Event.cmd ["git", "config", "user.email"],
           Event.cmd ["git", "config", "user.email", "auto-uploader@example.com"]]
        else [Event.cmd ["git", "config", "user.email"]])) := by
  rcases st with ⟨init, orig, un, ue, ch, wt, idx, cs, cb, pu⟩
  cases un with
  | none =>
    cases ue with
    | none => rfl
    | some w =>
      by_cases hw : str_strip w = "" <;>
        simp [stageEnsureIdentity, run_git_command, pyGit_get_name, pyGit_set_name,
          pyGit_get_email, pyGit_set_email, str_strip_empty, hw]
  | some v =>
    cases ue with
    | none =>
      by_cases hv : str_strip v = "" <;>
        simp [stageEnsureIdentity, run_git_command, pyGit_get_name, pyGit_set_name,
          pyGit_get_email, pyGit_set_email, str_strip_empty, hv]
    | some w =>
      by_cases hv : str_strip v = "" <;> by_cases hw : str_strip w = "" <;>
        simp [stageEnsureIdentity, run_git_command, pyGit_get_name, pyGit_set_name,
          pyGit_get_email, pyGit_set_email, hv, hw]

/-- Stage 4 always succeeds (credential registration is never fatal);
under ` pyGit ` registration itself succeeds, configuring the cache helper
and piping the credential on stdin, and does nothing without a token. -/
theorem stage4_eq (token d : String) (st : GitState) :
    stageCredentials pyGit token d st =
      (true,
       if token = "" then st else { st with credentialHelper := some "cache" },
       if token = "" then ([] : List Event) else
         [Event.cmd ["git", "config", "--local", "credential.helper", "cache"],
          Event.pipe ["git", "credential", "approve"] (credential_input token)]) := by
  by_cases h : token = "" <;>
    simp [stageCredentials, setup_git_credentials_helper, run_git_command,
      pyGit_cred_helper, pyGit_popenOk, h]

/-- Stage 5 always succeeds under ` pyGit ` and stages the whole working
tree. -/
theorem stage5_eq (st : GitState) :
    stageAddAll pyGit st =
      (true, { st with index := st.workTree },
       [Event.cmd ["git", "add", "."], Event.log "✅ Files added to staging area"]) := rfl

/-- Stage 6: when the script-detection test fires, the relative script
path is unstaged; otherwise nothing happens. -/
theorem stage6_eq (sp : String) (sif : Bool) (d : String) (st : GitState) :
    stageSelfExclude pyGit sp sif d st =
      (true,
       if sif && startswith sp d then
         { st with index := st.index.filter (fun q => q ≠ os_path_relpath sp d) } else st,
       if sif && startswith sp d then
         [Event.log "⚠️ Detected script in repository. Excluding it from commit to prevent token exposure.",
          Event.cmd ["git", "reset", "HEAD", os_path_relpath sp d]]
       else ([] : List Event)) := by
  by_cases h : (sif && startswith sp d) = true
  · simp only [stageSelfExclude, run_git_command, pyGit_reset, h]
    simp
  · simp only [stageSelfExclude, run_git_command, pyGit_reset,
      Bool.not_eq_true] at h ⊢
    simp [h]

/-- Stage 7 succeeds exactly when something is staged, and then records
the commit with the staged snapshot. -/
theorem stage7_eq (st : GitState) :
    stageCommit pyGit st =
      (!st.index.isEmpty,
       if st.index.isEmpty then st
       else { st with commits := ("Initial commit from auto-upload script", st.index) :: st.commits },
       if st.index.isEmpty then
         [Event.cmd ["git", "commit", "-m", "Initial commit from auto-upload script"],
          Event.log "❌ Failed to commit: nothing to commit"]
       else
         [Event.cmd ["git", "commit", "-m", "Initial commit from auto-upload script"],
          Event.log "✅ Changes committed"]) := by
  by_cases h : st.index.isEmpty <;>
    simp [stageCommit, run_git_command, pyGit_commit, h]

/-- Stage 8: a non-default branch is created and switched to; the two
conventional default names leave the branch untouched. -/
theorem stage8_eq (branch : String) (st : GitState) :
    stageBranch pyGit branch st =
      (true,
       if branch ≠ "main" && branch ≠ "master" then
         { st with currentBranch := branch } else st,
       if branch ≠ "main" && branch ≠ "master" then
         [Event.cmd ["git", "checkout", "-b", branch],
          Event.log ("✅ Created and switched to branch " ++ branch)]
       else ([] : List Event)) := by
  by_cases h1 : branch = "main" <;> by_cases h2 : branch = "master" <;>
    simp [stageBranch, run_git_command, pyGit_checkout, h1, h2]

/-- Stage 9 succeeds whenever an origin remote is configured, recording
the push. -/
theorem stage9_eq (branch : String) (st : GitState) (u : String)
    (h : st.originUrl = some u) :
    stagePush pyGit branch st =
      (true, { st with pushed := ("origin", branch) :: st.pushed },
       [Event.cmd ["git", "push", "-u", "origin", branch],
        Event.log ("✅ Successfully pushed to GitHub branch " ++ branch)]) := by
  simp [stagePush, run_git_command, pyGit_push, h]

/-! ## Full characterization of ` setup_and_push_repo ` under ` pyGit ` -/

set_option maxHeartbeats 4000000 in
/-- The whole pipeline under the concrete collaborator: it succeeds
exactly when the staged set left after the self-exclusion guard is
nonempty, and the final local state and full trace are as follows. -/
theorem pipeline_eq (st : GitState) (url dir branch token sp : String) (sif : Bool) :
    setup_and_push_repo pyGit url dir branch token sp sif st =
      (!(if sif && startswith sp dir then
           st.workTree.filter (fun q => q ≠ os_path_relpath sp dir)
         else st.workTree).isEmpty,
       { st with
         initialized := true,
         originUrl := some url,
         userName := if str_strip (st.userName.getD "") = "" then
           some "GitHub Auto Uploader" else st.userName,
         userEmail := if str_strip (st.userEmail.getD "") = "" then
           some "auto-uploader@example.com" else st.userEmail,
         credentialHelper := if token = "" then st.credentialHelper else some "cache",
         index := (if sif && startswith sp dir then
           st.workTree.filter (fun q => q ≠ os_path_relpath sp dir) else st.workTree),
         commits := if (if sif && startswith sp dir then
             st.workTree.filter (fun q => q ≠ os_path_relpath sp dir)
           else st.workTree).isEmpty then st.commits
           else ("Initial commit from auto-upload script",
             (if sif && startswith sp dir then
               st.workTree.filter (fun q => q ≠ os_path_relpath sp dir)
             else st.workTree)) :: st.commits,
         currentBranch := if (if sif && startswith sp dir then
             st.workTree.filter (fun q => q ≠ os_path_relpath sp dir)
           else st.workTree).isEmpty then st.currentBranch
           else (if branch ≠ "main" && branch ≠ "master" then branch else st.currentBranch),
         pushed := if (if sif && startswith sp dir then
             st.workTree.filter (fun q => q ≠ os_path_relpath sp dir)
           else st.workTree).isEmpty then st.pushed
           else ("origin", branch) :: st.pushed },
       (if st.initialized then
          [Event.cmd ["git", "rev-parse", "--is-inside-work-tree"],
           Event.log "ℹ️ Git repository already initialized"]
        else
          [Event.cmd ["git", "rev-parse", "--is-inside-work-tree"],
           Event.cmd ["git", "init"],
           Event.log "✅ Git repository initialized"]) ++
       (match st.originUrl with
        | none => [Event.cmd ["git", "remote", "add", "origin", url],
                   Event.log "✅ Remote added"]
        | some _ => [Event.cmd ["git", "remote", "add", "origin", url],
                     Event.cmd ["git", "remote", "-v"],
                     Event.cmd ["git", "remote", "set-url", "origin", url],
                     Event.log "✅ Remote updated"]) ++
       (if str_strip (st.userName.getD "") = "" then
          [Event.cmd ["git", "config", "user.name"],
           Event.cmd ["git", "config", "user.name", "GitHub Auto Uploader"]]
        else [Event.cmd ["git", "config", "user.name"]]) ++
       (if str_strip (st.userEmail.getD "") = "" then
          [Event.cmd ["git", "config", "user.email"],
           Event.cmd ["git", "config", "user.email", "auto-uploader@example.com"]]
        else [Event.cmd ["git", "config", "user.email"]]) ++
       (if token = "" then ([] : List Event) else
          [Event.cmd ["git", "config", "--local", "credential.helper", "cache"],
           Event.pipe ["git", "credential", "approve"] (credential_input token)]) ++
       [Event.cmd ["git", "add", "."], Event.log "✅ Files added to staging area"] ++
       (if sif && startswith sp dir then
          [Event.log "⚠️ Detected script in repository. Excluding it from commit to prevent token exposure.",
           Event.cmd ["git", "reset", "HEAD", os_path_relpath sp dir]]
        else ([] : List Event)) ++
       [Event.cmd ["git", "commit", "-m", "Initial commit from auto-upload script"]] ++
       (if (if sif && startswith sp dir then
              st.workTree.filter (fun q => q ≠ os_path_relpath sp dir)
            else st.workTree).isEmpty then
          [Event.log "❌ Failed to commit: nothing to commit"]
        else
          [Event.log "✅ Changes committed"] ++
          (if branch ≠ "main" && branch ≠ "master" then
             [Event.cmd ["git", "checkout", "-b", branch],
              Event.log ("✅ Created and switched to branch " ++ branch)]
           else ([] : List Event)) ++
          [Event.cmd ["git", "push", "-u", "origin", branch],
           Event.log ("✅ Successfully pushed to GitHub branch " ++ branch)])) := by
  by_cases ht : token = "" <;>
  by_cases hg : (sif && startswith sp dir) = true <;>
  by_cases hb1 : branch = "main" <;>
  by_cases hb2 : branch = "master" <;>
  by_cases hw : st.workTree.isEmpty = true <;>
  by_cases hf : (st.workTree.filter (fun q => q ≠ os_path_relpath sp dir)).isEmpty = true <;>
  simp_all [setup_and_push_repo, stages123, stage1_eq, stage2_eq, stage3_eq, stage4_eq,
    stage5_eq, stage6_eq, stage7_eq, stage8_eq, stage9_eq, andThen_true, andThen_false] <;>
  split_ifs <;>
  simp_all [stage7_eq, stage8_eq, stage9_eq, andThen_true, andThen_false]
  all_goals
    obtain ⟨x, hx, hne⟩ := hf
  all_goals
    exact hne (‹∀ a ∈ st.workTree, a = os_path_relpath sp dir› x hx)


/-! ## Claim theorems -/

/-- C4: ` create_github_repo ` returns the repository data exactly when
the provider answers the created status 201; on any other status it
returns ` none ` and reports the message extracted from the response body,
with the fixed default when the body has none. -/
theorem c4_create_repo_result (response : HttpResponse) (repo_name : String) :
    ((∃ d, (create_github_repo response repo_name).1 = some d) ↔
        response.status_code = 201) ∧
    (response.status_code = 201 →
      (create_github_repo response repo_name).1 = some response.body) ∧
    (response.status_code ≠ 201 →
      (create_github_repo response repo_name).1 = none ∧
      Event.log ("Error message: " ++ (response.body.message.getD "Unknown error")) ∈
        (create_github_repo response repo_name).2) := by
  by_cases h : response.status_code = 201 <;> simp [create_github_repo, h]

/-- Witness for C4: a duplicate-name failure response (422, with a message
in the body) yields no repository data and logs that message; a created
response (201) yields the body. -/
theorem c4_create_repo_result_witness :
    (create_github_repo ⟨422, ⟨some "name already exists", none, none⟩⟩ "demo").1 = none ∧
    Event.log ("Error message: " ++
        ((⟨some "name already exists", none, none⟩ : RespBody).message.getD "Unknown error")) ∈
      (create_github_repo ⟨422, ⟨some "name already exists", none, none⟩⟩ "demo").2 ∧
    (create_github_repo
        ⟨201, ⟨none, some "https://github.com/u/demo.git", some "https://github.com/u/demo"⟩⟩
        "demo").1 =
      some ⟨none, some "https://github.com/u/demo.git", some "https://github.com/u/demo"⟩ := by
  refine ⟨?_, ?_, ?_⟩
  · exact ((c4_create_repo_result ⟨422, ⟨some "name already exists", none, none⟩⟩ "demo").2.2
      (by decide)).1
  · exact ((c4_create_repo_result ⟨422, ⟨some "name already exists", none, none⟩⟩ "demo").2.2
      (by decide)).2
  · exact (c4_create_repo_result
      ⟨201, ⟨none, some "https://github.com/u/demo.git", some "https://github.com/u/demo"⟩⟩
      "demo").2.1 rfl

/-- C8: when repository creation fails (any non-created status), the
program exits with code 1, leaves the local collaborator state untouched,
and its whole observable trace holds no VCS operation at all — the two
printed lines are the only effects. -/
theorem c8_failed_creation_exits_early {S : Type} (g : Git S) (response : HttpResponse)
    (repo_name abs_directory branch token script_path : String) (script_isfile : Bool)
    (s : S) (h : response.status_code ≠ 201) :
    mainCore g response repo_name abs_directory branch token script_path script_isfile s =
      (1, s, (create_github_repo response repo_name).2) ∧
    ∀ e ∈ (mainCore g response repo_name abs_directory branch token script_path
        script_isfile s).2.2, isVcsOp e = false := by
  constructor
  · simp [mainCore, create_github_repo, h]
  · simp [mainCore, create_github_repo, h, isVcsOp]

/-- Witness for C8: a concrete duplicate-name failure exits with code 1,
an unchanged state and a log-only trace. -/
theorem c8_failed_creation_exits_early_witness :
    mainCore pyGit ⟨422, ⟨some "name already exists", none, none⟩⟩ "demo" "/w" "main"
        "tok" "/s/app.py" false freshState =
      (1, freshState,
        (create_github_repo ⟨422, ⟨some "name already exists", none, none⟩⟩ "demo").2) ∧
    ∀ e ∈ (mainCore pyGit ⟨422, ⟨some "name already exists", none, none⟩⟩ "demo" "/w" "main"
        "tok" "/s/app.py" false freshState).2.2, isVcsOp e = false :=
  c8_failed_creation_exits_early pyGit ⟨422, ⟨some "name already exists", none, none⟩⟩
    "demo" "/w" "main" "tok" "/s/app.py" false freshState (by decide)

/-- C6: on a directory whose origin remote already exists (pointing
anywhere), stage 2 succeeds, rewrites the origin URL to the given clone
endpoint, and does so through the set-url invocation. -/
theorem c6_existing_origin_updated (st : GitState) (u url : String)
    (h : st.originUrl = some u) :
    (stageEnsureRemote pyGit url st).1 = true ∧
    (stageEnsureRemote pyGit url st).2.1 = { st with originUrl := some url } ∧
    Event.cmd ["git", "remote", "set-url", "origin", url] ∈
      (stageEnsureRemote pyGit url st).2.2 := by
  rw [stage2_eq]
  refine ⟨rfl, rfl, ?_⟩
  simp [h]

/-- Witness for C6: a directory whose origin points at an old URL is
rewritten to the new clone endpoint. -/
theorem c6_existing_origin_updated_witness :
    (stageEnsureRemote pyGit "https://github.com/u/demo.git"
        { freshState with originUrl := some "https://old.example/x.git" }).1 = true ∧
    (stageEnsureRemote pyGit "https://github.com/u/demo.git"
        { freshState with originUrl := some "https://old.example/x.git" }).2.1 =
      { { freshState with originUrl := some "https://old.example/x.git" } with
          originUrl := some "https://github.com/u/demo.git" } ∧
    Event.cmd ["git", "remote", "set-url", "origin", "https://github.com/u/demo.git"] ∈
      (stageEnsureRemote pyGit "https://github.com/u/demo.git"
        { freshState with originUrl := some "https://old.example/x.git" }).2.2 :=
  c6_existing_origin_updated _ "https://old.example/x.git" _ rfl

/-- C7: stage 3 never overwrites a configured identity — each identity key
is rewritten exactly when its current stripped value is blank, and when
both are configured the whole state is left unchanged. -/
theorem c7_identity_preserved (st : GitState) :
    (stageEnsureIdentity pyGit st).1 = true ∧
    ((stageEnsureIdentity pyGit st).2.1.userName =
      if str_strip (st.userName.getD "") = "" then some "GitHub Auto Uploader"
      else st.userName) ∧
    ((stageEnsureIdentity pyGit st).2.1.userEmail =
      if str_strip (st.userEmail.getD "") = "" then some "auto-uploader@example.com"
      else st.userEmail) ∧
    (str_strip (st.userName.getD "") ≠ "" → str_strip (st.userEmail.getD "") ≠ "" →
      (stageEnsureIdentity pyGit st).2.1 = st) := by
  rcases st with ⟨init, orig, un, ue, ch, wt, idx, cs, cb, pu⟩
  rw [stage3_eq]
  refine ⟨rfl, by simp, by simp, fun h1 h2 => by simp [h1, h2]⟩

/-- Witness for C7: a directory with a configured name and email keeps
them untouched. -/
theorem c7_identity_preserved_witness :
    (stageEnsureIdentity pyGit
        { freshState with
            userName := some "Alice Doe",
            userEmail := some "alice@example.com" }).2.1 =
      { freshState with
          userName := some "Alice Doe",
          userEmail := some "alice@example.com" } :=
  (c7_identity_preserved _).2.2.2 (by decide) (by decide)

/-- ` GitHub Auto Uploader ` is already stripped. -/
theorem str_strip_uploader : str_strip "GitHub Auto Uploader" = "GitHub Auto Uploader" := rfl

/-- ` auto-uploader@example.com ` is already stripped. -/
theorem str_strip_mail : str_strip "auto-uploader@example.com" = "auto-uploader@example.com" := rfl

/-- The placeholder user name is not blank. -/
theorem uploader_ne_empty : ("GitHub Auto Uploader" : String) ≠ "" := by decide

/-- The placeholder email is not blank. -/
theorem mail_ne_empty : ("auto-uploader@example.com" : String) ≠ "" := by decide

/-- Stages 1-3 composed under ` pyGit `: they always succeed, and the
resulting local state is the input state with a working tree ensured, the
origin remote at the given URL, and blank identity keys replaced by the
placeholders. -/
theorem stages123_eq (st : GitState) (url : String) :
    stages123 pyGit url st =
      (true,
       { st with
         initialized := true,
         originUrl := some url,
         userName := if str_strip (st.userName.getD "") = "" then
           some "GitHub Auto Uploader" else st.userName,
         userEmail := if str_strip (st.userEmail.getD "") = "" then
           some "auto-uploader@example.com" else st.userEmail },
       (if st.initialized then
          [Event.cmd ["git", "rev-parse", "--is-inside-work-tree"],
           Event.log "ℹ️ Git repository already initialized"]
        else
          [Event.cmd ["git", "rev-parse", "--is-inside-work-tree"],
           Event.cmd ["git", "init"],
           Event.log "✅ Git repository initialized"]) ++
       (match st.originUrl with
        | none => [Event.cmd ["git", "remote", "add", "origin", url],
                   Event.log "✅ Remote added"]
        | some _ => [Event.cmd ["git", "remote", "add", "origin", url],
                     Event.cmd ["git", "remote", "-v"],
                     Event.cmd ["git", "remote", "set-url", "origin", url],
                     Event.log "✅ Remote updated"]) ++
       (if str_strip (st.userName.getD "") = "" then
          [Event.cmd ["git", "config", "user.name"],
           Event.cmd ["git", "config", "user.name", "GitHub Auto Uploader"]]
        else [Event.cmd ["git", "config", "user.name"]]) ++
       (if str_strip (st.userEmail.getD "") = "" then
          [Event.cmd ["git", "config", "user.email"],
           Event.cmd ["git", "config", "user.email", "auto-uploader@example.com"]]
        else [Event.cmd ["git", "config", "user.email"]])) := by
  simp [stages123, stage1_eq, stage2_eq, stage3_eq, andThen_true]

/-- C5: stages 1-3 of the publish pipeline are idempotent — both runs
succeed and the second run on the state produced by the first leaves that
state exactly as it was. -/
theorem c5_stages123_idempotent (st : GitState) (url : String) :
    (stages123 pyGit url st).1 = true ∧
    (stages123 pyGit url ((stages123 pyGit url st).2.1)).1 = true ∧
    (stages123 pyGit url ((stages123 pyGit url st).2.1)).2.1 =
      (stages123 pyGit url st).2.1 := by
  rcases st with ⟨init, orig, un, ue, ch, wt, idx, cs, cb, pu⟩
  by_cases h1 : str_strip (un.getD "") = "" <;>
  by_cases h2 : str_strip (ue.getD "") = "" <;>
    simp [stages123_eq, h1, h2, str_strip_uploader, str_strip_mail,
      uploader_ne_empty, mail_ne_empty]

/-- C2: when the invoking script lives under the published directory (its
path is the directory plus a relative remainder), a successful run creates
exactly one commit and that commit does not contain the script. -/
theorem c2_script_excluded (st : GitState) (url dir branch token rel : String)
    (hrel : os_path_relpath (dir ++ ("/" ++ rel)) dir = rel)
    (hcommits : st.commits = [])
    (hsuccess : (setup_and_push_repo pyGit url dir branch token
      (dir ++ ("/" ++ rel)) true st).1 = true) :
    ∃ snapshot,
      (setup_and_push_repo pyGit url dir branch token
        (dir ++ ("/" ++ rel)) true st).2.1.commits =
        [("Initial commit from auto-upload script", snapshot)] ∧
      rel ∉ snapshot := by
  rw [pipeline_eq] at hsuccess ⊢
  simp only [startswith_append, Bool.and_self, if_true, Bool.not_eq_true] at hsuccess ⊢
  have hne : (st.workTree.filter
      (fun q => q ≠ os_path_relpath (dir ++ ("/" ++ rel)) dir)).isEmpty = false := by
    simpa using hsuccess
  simp only [hrel] at hne ⊢
  refine ⟨st.workTree.filter (fun q => q ≠ rel), ?_, ?_⟩
  · simp only [hne, hcommits]
    simp
  · simp [List.mem_filter]

/-- Witness for C2: a fresh directory holding ` a.txt ` and the script
` app.py ` under ` /repo `; the run succeeds and commits only ` a.txt `. -/
theorem c2_script_excluded_witness :
    ∃ snapshot,
      (setup_and_push_repo pyGit "https://github.com/u/demo.git" "/repo" "main" "tok"
        ("/repo" ++ ("/" ++ "app.py")) true
        { freshState with workTree := ["a.txt", "app.py"] }).2.1.commits =
        [("Initial commit from auto-upload script", snapshot)] ∧
      "app.py" ∉ snapshot :=
  c2_script_excluded { freshState with workTree := ["a.txt", "app.py"] }
    "https://github.com/u/demo.git" "/repo" "main" "tok" "app.py"
    (by decide) (by decide) (by decide)

/-- C10: the self-exclusion guard is a raw string-prefix test: with
localPath ` /home/user/project ` and the script at
` /home/user/project-backup/app.py ` — which is not under localPath, but
whose path string extends the localPath string — the guard still fires and
unstages the prefix-relative path ` ../project-backup/app.py `. -/
theorem c10_prefix_guard_fires :
    startswith "/home/user/project-backup/app.py" "/home/user/project" = true ∧
    startswith "/home/user/project-backup/app.py" ("/home/user/project" ++ "/") = false ∧
    "/home/user/project-backup/app.py" ≠ "/home/user/project" ∧
    os_path_relpath "/home/user/project-backup/app.py" "/home/user/project" =
      "../project-backup/app.py" ∧
    Event.cmd ["git", "reset", "HEAD", "../project-backup/app.py"] ∈
      (setup_and_push_repo pyGit "https://github.com/u/demo.git" "/home/user/project"
        "main" "" "/home/user/project-backup/app.py" true freshState).2.2 := by
  exact ⟨by decide, by decide, by decide, by decide, by decide⟩

/-- C3 counterexample: in the concrete fresh-directory run with a token,
the credential-registration event (position 10 of the trace) is separated
from the push invocation (position 15) by further VCS operations — the
staging command sits at position 11 — so the claimed property
` noOtherVcsBetween ` is false for this run. -/
theorem c3_counterexample :
    ¬ noOtherVcsBetween
        (setup_and_push_repo pyGit "https://github.com/u/demo.git" "/w" "main" "tok"
          "/elsewhere/app.py" false freshState).2.2 := by
  intro h
  exact absurd
    (h 10 15 11 (Event.pipe ["git", "credential", "approve"] (credential_input "tok"))
      (Event.cmd ["git", "push", "-u", "origin", "main"]) (Event.cmd ["git", "add", "."])
      (by decide) (by decide) (by decide) (by decide) (by decide) (by decide) (by decide))
    (by decide)

/-- An inert event is not the credential registration. -/
theorem inert_spec (e : Event) (h : inert e = true) :
    isCredApprove e = false ∧ isStageAll e = false ∧ isPushCmd e = false := by
  simp [inert] at h
  exact ⟨h.1.1, h.1.2, h.2⟩

/-- ` findIdx ` skips over a prefix on which the predicate is false. -/
theorem findIdx_append_of_false {α : Type} (p : α → Bool) (l1 l2 : List α)
    (h : ∀ e ∈ l1, p e = false) :
    (l1 ++ l2).findIdx p = l1.length + l2.findIdx p := by
  rw [List.findIdx_append, List.findIdx_eq_length_of_false h]
  simp [Nat.add_comm]

/-- ` findIdx ` skips over a prefix of inert events, for any of the three
predicates of interest. -/
theorem findIdx_append_inert {p : Event → Bool}
    (hp : ∀ e, inert e = true → p e = false) (l1 l2 : List Event)
    (h : ∀ e ∈ l1, inert e = true) :
    (l1 ++ l2).findIdx p = l1.length + l2.findIdx p :=
  findIdx_append_of_false p l1 l2 (fun e he => hp e (h e he))

/-- The credential predicate on each event constructor. -/
theorem credApprove_pipe (a : List String) (i : String) :
    isCredApprove (Event.pipe a i) = true := rfl

/-- A plain command is not the credential registration. -/
theorem credApprove_cmd (a : List String) : isCredApprove (Event.cmd a) = false := rfl

/-- A print is not the credential registration. -/
theorem credApprove_log (m : String) : isCredApprove (Event.log m) = false := rfl

/-- A print is not the staging invocation. -/
theorem stageAll_log (m : String) : isStageAll (Event.log m) = false := rfl

/-- A piped subprocess is not the staging invocation. -/
theorem stageAll_pipe (a : List String) (i : String) :
    isStageAll (Event.pipe a i) = false := rfl

/-- The credential-helper configuration is not the staging invocation. -/
theorem stageAll_cfg :
    isStageAll (Event.cmd ["git", "config", "--local", "credential.helper", "cache"]) =
      false := rfl

/-- ` git add . ` is the staging invocation. -/
theorem stageAll_add : isStageAll (Event.cmd ["git", "add", "."]) = true := rfl

/-- The commit invocation is not the staging invocation. -/
theorem stageAll_commit :
    isStageAll (Event.cmd ["git", "commit", "-m", "Initial commit from auto-upload script"]) =
      false := rfl

/-- The push invocation is not the staging invocation. -/
theorem stageAll_push (b : String) :
    isStageAll (Event.cmd ["git", "push", "-u", "origin", b]) = false := rfl

/-- A print is not the push invocation. -/
theorem pushCmd_log (m : String) : isPushCmd (Event.log m) = false := rfl

/-- A piped subprocess is not the push invocation. -/
theorem pushCmd_pipe (a : List String) (i : String) :
    isPushCmd (Event.pipe a i) = false := rfl

/-- The credential-helper configuration is not the push invocation. -/
theorem pushCmd_cfg :
    isPushCmd (Event.cmd ["git", "config", "--local", "credential.helper", "cache"]) =
      false := rfl

/-- ` git add . ` is not the push invocation. -/
theorem pushCmd_add : isPushCmd (Event.cmd ["git", "add", "."]) = false := rfl

/-- The commit invocation is not the push invocation. -/
theorem pushCmd_commit :
    isPushCmd (Event.cmd ["git", "commit", "-m", "Initial commit from auto-upload script"]) =
      false := rfl

/-- ` git push -u origin <b> ` is the push invocation. -/
theorem pushCmd_push (b : String) :
    isPushCmd (Event.cmd ["git", "push", "-u", "origin", b]) = true := rfl

/-- Event ordering in any trace of the successful-run shape: the
credential registration comes strictly before the staging invocation,
which comes strictly before the push, and the push is present. -/
theorem trace_order (A B C D G T8 : List Event) (input pushBranch : String)
    (hA : ∀ e ∈ A, inert e = true) (hB : ∀ e ∈ B, inert e = true)
    (hC : ∀ e ∈ C, inert e = true) (hD : ∀ e ∈ D, inert e = true)
    (hG : ∀ e ∈ G, inert e = true) (hT8 : ∀ e ∈ T8, inert e = true) :
    ∀ tr : List Event,
      tr = A ++ (B ++ (C ++ (D ++
        (Event.cmd ["git", "config", "--local", "credential.helper", "cache"] ::
         Event.pipe ["git", "credential", "approve"] input ::
         Event.cmd ["git", "add", "."] ::
         Event.log "✅ Files added to staging area" ::
         (G ++ (Event.cmd ["git", "commit", "-m", "Initial commit from auto-upload script"] ::
           Event.log "✅ Changes committed" ::
           (T8 ++ [Event.cmd ["git", "push", "-u", "origin", pushBranch],
             Event.log ("✅ Successfully pushed to GitHub branch " ++ pushBranch)]))))))) →
      tr.findIdx isCredApprove < tr.findIdx isStageAll ∧
      tr.findIdx isStageAll < tr.findIdx isPushCmd ∧
      tr.findIdx isPushCmd < tr.length := by
  intro tr htr
  subst htr
  have pc : ∀ e, inert e = true → isCredApprove e = false :=
    fun e he => (inert_spec e he).1
  have pa : ∀ e, inert e = true → isStageAll e = false :=
    fun e he => (inert_spec e he).2.1
  have pp : ∀ e, inert e = true → isPushCmd e = false :=
    fun e he => (inert_spec e he).2.2
  rw [findIdx_append_inert pc _ _ hA, findIdx_append_inert pc _ _ hB,
    findIdx_append_inert pc _ _ hC, findIdx_append_inert pc _ _ hD,
    findIdx_append_inert pa _ _ hA, findIdx_append_inert pa _ _ hB,
    findIdx_append_inert pa _ _ hC, findIdx_append_inert pa _ _ hD,
    findIdx_append_inert pp _ _ hA, findIdx_append_inert pp _ _ hB,
    findIdx_append_inert pp _ _ hC, findIdx_append_inert pp _ _ hD]
  simp only [List.findIdx_cons, credApprove_cmd, credApprove_pipe, credApprove_log,
    stageAll_cfg, stageAll_pipe, stageAll_add, stageAll_log, stageAll_commit,
    stageAll_push, pushCmd_cfg, pushCmd_pipe, pushCmd_add, pushCmd_log,
    pushCmd_commit, pushCmd_push, cond_true, cond_false]
  rw [findIdx_append_inert pp _ _ hG]
  simp only [List.findIdx_cons, pushCmd_commit, pushCmd_log, cond_true, cond_false]
  rw [findIdx_append_inert pp _ _ hT8]
  simp only [List.findIdx_cons, pushCmd_push, pushCmd_log, cond_true, cond_false]
  simp only [List.length_append, List.length_cons]
  omega

/-- C3 (amended): in every successful pipeline run that supplies a token,
registration of the credential precedes the push — but not immediately:
the staging invocation stands strictly between the registration event and
the push invocation (and the push does occur). -/
theorem c3_amended_registration_before_push (st : GitState)
    (url dir branch token sp : String) (sif : Bool) (ht : token ≠ "")
    (hs : (setup_and_push_repo pyGit url dir branch token sp sif st).1 = true) :
    ((setup_and_push_repo pyGit url dir branch token sp sif st).2.2.findIdx isCredApprove <
      (setup_and_push_repo pyGit url dir branch token sp sif st).2.2.findIdx isStageAll) ∧
    ((setup_and_push_repo pyGit url dir branch token sp sif st).2.2.findIdx isStageAll <
      (setup_and_push_repo pyGit url dir branch token sp sif st).2.2.findIdx isPushCmd) ∧
    ((setup_and_push_repo pyGit url dir branch token sp sif st).2.2.findIdx isPushCmd <
      (setup_and_push_repo pyGit url dir branch token sp sif st).2.2.length) := by
  rw [pipeline_eq] at hs
  have hne : (if sif && startswith sp dir then
      st.workTree.filter (fun q => q ≠ os_path_relpath sp dir)
    else st.workTree).isEmpty = false := by
    rw [Bool.not_eq_true'] at hs
    exact hs
  rw [pipeline_eq]
  refine trace_order
    (if st.initialized then
       [Event.cmd ["git", "rev-parse", "--is-inside-work-tree"],
        Event.log "ℹ️ Git repository already initialized"]
     else
       [Event.cmd ["git", "rev-parse", "--is-inside-work-tree"],
        Event.cmd ["git", "init"],
        Event.log "✅ Git repository initialized"])
    (match st.originUrl with
     | none => [Event.cmd ["git", "remote", "add", "origin", url],
                Event.log "✅ Remote added"]
     | some _ => [Event.cmd ["git", "remote", "add", "origin", url],
                  Event.cmd ["git", "remote", "-v"],
                  Event.cmd ["git", "remote", "set-url", "origin", url],
                  Event.log "✅ Remote updated"])
    (if str_strip (st.userName.getD "") = "" then
       [Event.cmd ["git", "config", "user.name"],
        Event.cmd ["git", "config", "user.name", "GitHub Auto Uploader"]]
     else [Event.cmd ["git", "config", "user.name"]])
    (if str_strip (st.userEmail.getD "") = "" then
       [Event.cmd ["git", "config", "user.email"],
        Event.cmd ["git", "config", "user.email", "auto-uploader@example.com"]]
     else [Event.cmd ["git", "config", "user.email"]])
    (if sif && startswith sp dir then
       [Event.log "⚠️ Detected script in repository. Excluding it from commit to prevent token exposure.",
        Event.cmd ["git", "reset", "HEAD", os_path_relpath sp dir]]
     else ([] : List Event))
    (if branch ≠ "main" && branch ≠ "master" then
       [Event.cmd ["git", "checkout", "-b", branch],
        Event.log ("✅ Created and switched to branch " ++ branch)]
     else ([] : List Event))
    (credential_input token) branch ?_ ?_ ?_ ?_ ?_ ?_ _ ?_
  · split <;> simp [inert, isCredApprove, isStageAll, isPushCmd]
  · split <;> simp [inert, isCredApprove, isStageAll, isPushCmd]
  · split <;> simp [inert, isCredApprove, isStageAll, isPushCmd]
  · split <;> simp [inert, isCredApprove, isStageAll, isPushCmd]
  · split <;> simp [inert, isCredApprove, isStageAll, isPushCmd]
  · split <;> simp [inert, isCredApprove, isStageAll, isPushCmd]
  · simp [ht, hne]
    simpa using hne

/-- Witness for the amended C3: the concrete fresh-directory run with a
token orders registration, staging and push as stated. -/
theorem c3_amended_registration_before_push_witness :
    ((setup_and_push_repo pyGit "https://github.com/u/demo.git" "/w" "main" "tok"
        "/elsewhere/app.py" false freshState).2.2.findIdx isCredApprove <
      (setup_and_push_repo pyGit "https://github.com/u/demo.git" "/w" "main" "tok"
        "/elsewhere/app.py" false freshState).2.2.findIdx isStageAll) ∧
    ((setup_and_push_repo pyGit "https://github.com/u/demo.git" "/w" "main" "tok"
        "/elsewhere/app.py" false freshState).2.2.findIdx isStageAll <
      (setup_and_push_repo pyGit "https://github.com/u/demo.git" "/w" "main" "tok"
        "/elsewhere/app.py" false freshState).2.2.findIdx isPushCmd) ∧
    ((setup_and_push_repo pyGit "https://github.com/u/demo.git" "/w" "main" "tok"
        "/elsewhere/app.py" false freshState).2.2.findIdx isPushCmd <
      (setup_and_push_repo pyGit "https://github.com/u/demo.git" "/w" "main" "tok"
        "/elsewhere/app.py" false freshState).2.2.length) :=
  c3_amended_registration_before_push freshState "https://github.com/u/demo.git" "/w"
    "main" "tok" "/elsewhere/app.py" false (by decide) (by decide)

/-! ## The collaborator with a failing credential store -/

/-- An event of a sequenced trace comes from one of the two steps. -/
theorem mem_andThen {S : Type} {r : Bool × S × List Event} {k : S → Bool × S × List Event}
    {e : Event} (he : e ∈ (andThen r k).2.2) : e ∈ r.2.2 ∨ e ∈ (k r.2.1).2.2 := by
  rcases r with ⟨b, s, tr⟩
  cases b
  · simp [andThen] at he
    exact Or.inl he
  · rcases hk : k s with ⟨ok, s1, ev1⟩
    rw [andThen, hk] at he
    simp only [List.mem_append] at he
    simp only [hk]
    exact he

/-- Stage 1 pipes nothing on stdin, over any collaborator. -/
theorem nopipe_stage1 {S : Type} (g : Git S) (s : S) :
    ∀ e ∈ (stageEnsureInit g s).2.2, isCredApprove e = false := by
  unfold stageEnsureInit run_git_command
  rcases h1 : g.run s ["git", "rev-parse", "--is-inside-work-tree"] with ⟨⟨ok, out⟩, s1⟩
  rcases h2 : g.run s1 ["git", "init"] with ⟨⟨ok2, out2⟩, s2⟩
  cases ok <;> cases ok2 <;> simp [h1, h2, isCredApprove]

/-- Stage 2 pipes nothing on stdin, over any collaborator. -/
theorem nopipe_stage2 {S : Type} (g : Git S) (url : String) (s : S) :
    ∀ e ∈ (stageEnsureRemote g url s).2.2, isCredApprove e = false := by
  unfold stageEnsureRemote run_git_command
  rcases h1 : g.run s ["git", "remote", "add", "origin", url] with ⟨⟨ok, out⟩, s1⟩
  rcases h2 : g.run s1 ["git", "remote", "-v"] with ⟨⟨ok2, out2⟩, s2⟩
  rcases h3 : g.run s2 ["git", "remote", "set-url", "origin", url] with ⟨⟨ok3, out3⟩, s3⟩
  cases ok <;> cases ok3 <;> by_cases hso : str_in "origin" out2 = true <;>
    simp [h1, h2, h3, hso, isCredApprove]

/-- Stage 3 pipes nothing on stdin, over any collaborator. -/
theorem nopipe_stage3 {S : Type} (g : Git S) (s : S) :
    ∀ e ∈ (stageEnsureIdentity g s).2.2, isCredApprove e = false := by
  unfold stageEnsureIdentity run_git_command
  rcases h1 : g.run s ["git", "config", "user.name"] with ⟨⟨ok, out⟩, s1⟩
  by_cases hn : str_strip out = ""
  · rcases h2 : g.run s1 ["git", "config", "user.name", "GitHub Auto Uploader"] with ⟨⟨okb, outb⟩, s2⟩
    rcases h3 : g.run s2 ["git", "config", "user.email"] with ⟨⟨ok2, out2⟩, s3⟩
    by_cases he : str_strip out2 = ""
    · rcases h4 : g.run s3 ["git", "config", "user.email", "auto-uploader@example.com"] with ⟨⟨okc, outc⟩, s4⟩
      simp [h1, h2, h3, h4, hn, he, isCredApprove]
    · simp [h1, h2, h3, hn, he, isCredApprove]
  · rcases h3 : g.run s1 ["git", "config", "user.email"] with ⟨⟨ok2, out2⟩, s3⟩
    by_cases he : str_strip out2 = ""
    · rcases h4 : g.run s3 ["git", "config", "user.email", "auto-uploader@example.com"] with ⟨⟨okc, outc⟩, s4⟩
      simp [h1, h3, h4, hn, he, isCredApprove]
    · simp [h1, h3, hn, he, isCredApprove]

/-- Stage 5 pipes nothing on stdin, over any collaborator. -/
theorem nopipe_stage5 {S : Type} (g : Git S) (s : S) :
    ∀ e ∈ (stageAddAll g s).2.2, isCredApprove e = false := by
  unfold stageAddAll run_git_command
  rcases h1 : g.run s ["git", "add", "."] with ⟨⟨ok, out⟩, s1⟩
  cases ok <;> simp [h1, isCredApprove]

/-- Stage 6 pipes nothing on stdin, over any collaborator. -/
theorem nopipe_stage6 {S : Type} (g : Git S) (sp : String) (sif : Bool) (d : String) (s : S) :
    ∀ e ∈ (stageSelfExclude g sp sif d s).2.2, isCredApprove e = false := by
  unfold stageSelfExclude run_git_command
  rcases h1 : g.run s ["git", "reset", "HEAD", os_path_relpath sp d] with ⟨⟨ok, out⟩, s1⟩
  by_cases hg : (sif && startswith sp d) = true <;> simp [h1, hg, isCredApprove]

/-- Stage 7 pipes nothing on stdin, over any collaborator. -/
theorem nopipe_stage7 {S : Type} (g : Git S) (s : S) :
    ∀ e ∈ (stageCommit g s).2.2, isCredApprove e = false := by
  unfold stageCommit run_git_command
  rcases h1 : g.run s ["git", "commit", "-m", "Initial commit from auto-upload script"] with ⟨⟨ok, out⟩, s1⟩
  cases ok <;> simp [h1, isCredApprove]

/-- Stage 8 pipes nothing on stdin, over any collaborator. -/
theorem nopipe_stage8 {S : Type} (g : Git S) (branch : String) (s : S) :
    ∀ e ∈ (stageBranch g branch s).2.2, isCredApprove e = false := by
  unfold stageBranch run_git_command
  rcases h1 : g.run s ["git", "checkout", "-b", branch] with ⟨⟨ok, out⟩, s1⟩
  cases ok <;> simp only [h1] <;> intro e he <;> revert he <;> split <;>
    simp [isCredApprove] <;> rintro (rfl | rfl) <;> rfl

/-- Stage 9 pipes nothing on stdin, over any collaborator. -/
theorem nopipe_stage9 {S : Type} (g : Git S) (branch : String) (s : S) :
    ∀ e ∈ (stagePush g branch s).2.2, isCredApprove e = false := by
  unfold stagePush run_git_command
  rcases h1 : g.run s ["git", "push", "-u", "origin", branch] with ⟨⟨ok, out⟩, s1⟩
  cases ok <;> simp [h1, isCredApprove]

/-- Stages 1-3 pipe nothing on stdin, over any collaborator. -/
theorem nopipe_stages123 {S : Type} (g : Git S) (url : String) (s : S) :
    ∀ e ∈ (stages123 g url s).2.2, isCredApprove e = false := by
  intro e he
  rcases mem_andThen (r := stageEnsureInit g s) he with h | h
  · exact nopipe_stage1 g s e h
  · rcases mem_andThen h with h2 | h2
    · exact nopipe_stage2 g url _ e h2
    · exact nopipe_stage3 g _ e h2

/-- Stages 5-9 pipe nothing on stdin, over any collaborator. -/
theorem nopipe_rest {S : Type} (g : Git S) (branch sp dir : String) (sif : Bool) (s4 : S) :
    ∀ e ∈ (andThen (stageAddAll g s4) (fun s5 =>
      andThen (stageSelfExclude g sp sif dir s5) (fun s6 =>
        andThen (stageCommit g s6) (fun s7 =>
          andThen (stageBranch g branch s7) (fun s8 =>
            stagePush g branch s8))))).2.2, isCredApprove e = false := by
  intro e he
  rcases mem_andThen he with h | h
  · exact nopipe_stage5 g _ e h
  · rcases mem_andThen h with h2 | h2
    · exact nopipe_stage6 g sp sif dir _ e h2
    · rcases mem_andThen h2 with h3 | h3
      · exact nopipe_stage7 g _ e h3
      · rcases mem_andThen h3 with h4 | h4
        · exact nopipe_stage8 g branch _ e h4
        · exact nopipe_stage9 g branch _ e h4

/-- Stage 4 never fails, whatever the collaborator does. -/
theorem stage4_success {S : Type} (g : Git S) (t d : String) (s : S) :
    (stageCredentials g t d s).1 = true := by
  unfold stageCredentials setup_git_credentials_helper run_git_command
  rcases h1 : g.run s ["git", "config", "--local", "credential.helper", "cache"] with ⟨⟨ok, out⟩, s1⟩
  by_cases ht : t = "" <;> cases ok <;> by_cases hp : g.popenOk s1 = true <;>
    simp [h1, ht, hp]

/-- Stage 4 treats two nonempty tokens identically up to the piped
credential data: same collaborator state, and the same trace after
erasing stdin contents. -/
theorem stage4_noninterf {S : Type} (g : Git S) (d : String) (s : S) (t1 t2 : String)
    (h1 : t1 ≠ "") (h2 : t2 ≠ "") :
    (stageCredentials g t1 d s).2.1 = (stageCredentials g t2 d s).2.1 ∧
    eraseCred (stageCredentials g t1 d s).2.2 = eraseCred (stageCredentials g t2 d s).2.2 := by
  unfold stageCredentials setup_git_credentials_helper run_git_command
  rcases hr : g.run s ["git", "config", "--local", "credential.helper", "cache"] with ⟨⟨ok, out⟩, s1⟩
  cases ok <;> by_cases hp : g.popenOk s1 = true <;>
    simp [hr, h1, h2, hp, eraseCred]

/-- The only stdin-piped event stage 4 can emit is the credential
registration, carrying exactly the fixed protocol, host and service
username with the token as password. -/
theorem stage4_pipes {S : Type} (g : Git S) (t d : String) (s : S) :
    ∀ e ∈ (stageCredentials g t d s).2.2, isCredApprove e = true →
      e = Event.pipe ["git", "credential", "approve"] (credential_input t) := by
  unfold stageCredentials setup_git_credentials_helper run_git_command
  rcases hr : g.run s ["git", "config", "--local", "credential.helper", "cache"] with ⟨⟨ok, out⟩, s1⟩
  by_cases ht : t = "" <;> cases ok <;> by_cases hp : g.popenOk s1 = true <;>
    simp [hr, ht, hp, isCredApprove]

/-- ` andThen ` on a successful step with explicit components. -/
theorem andThen_true2 {S : Type} (s : S) (tr : List Event) (k : S → Bool × S × List Event) :
    andThen (true, s, tr) k = ((k s).1, (k s).2.1, tr ++ (k s).2.2) := by
  rcases hk : k s with ⟨ok, s1, ev1⟩
  simp [andThen, hk]

/-- C1: the pipeline treats the credential as a write-once secret that
reaches the outside world only through the stdin pipe of
` git credential approve `: two runs with different (nonempty) tokens have
the same result, the same collaborator state, and identical traces once
piped stdin data is erased — no command argument, log line or collaborator
interaction depends on the token — and every stdin-piped event is exactly
the fixed credential-approve invocation carrying the token. -/
theorem c1_credential_noninterference {S : Type} (g : Git S)
    (url dir branch sp : String) (sif : Bool) (s : S) (t1 t2 : String)
    (h1 : t1 ≠ "") (h2 : t2 ≠ "") :
    (setup_and_push_repo g url dir branch t1 sp sif s).1 =
      (setup_and_push_repo g url dir branch t2 sp sif s).1 ∧
    (setup_and_push_repo g url dir branch t1 sp sif s).2.1 =
      (setup_and_push_repo g url dir branch t2 sp sif s).2.1 ∧
    eraseCred (setup_and_push_repo g url dir branch t1 sp sif s).2.2 =
      eraseCred (setup_and_push_repo g url dir branch t2 sp sif s).2.2 ∧
    ∀ e ∈ (setup_and_push_repo g url dir branch t1 sp sif s).2.2,
      isCredApprove e = true →
      e = Event.pipe ["git", "credential", "approve"] (credential_input t1) := by
  have hnp123 := nopipe_stages123 g url s
  unfold setup_and_push_repo
  rcases hR : stages123 g url s with ⟨bR, sR, trR⟩
  rw [hR] at hnp123
  cases bR
  · rw [andThen_false rfl, andThen_false rfl]
    exact ⟨rfl, rfl, rfl, fun e he hc => absurd hc (by simp [hnp123 e he])⟩
  · rw [andThen_true2, andThen_true2]
    have hs1 := stage4_success g t1 dir sR
    have hs2 := stage4_success g t2 dir sR
    obtain ⟨hstate, htrace⟩ := stage4_noninterf g dir sR t1 t2 h1 h2
    have hpipes := stage4_pipes g t1 dir sR
    rcases h4a : stageCredentials g t1 dir sR with ⟨b4, s4, tr4⟩
    rcases h4b : stageCredentials g t2 dir sR with ⟨b4x, s4x, tr4x⟩
    rw [h4a] at hs1 hstate htrace hpipes
    rw [h4b] at hs2 hstate htrace
    simp only at hs1 hs2 hstate htrace
    subst hs1
    subst hs2
    subst hstate
    rw [andThen_true2, andThen_true2]
    simp only
    refine ⟨trivial, trivial, ?_, ?_⟩
    · simp only [eraseCred, List.map_append]
      simp only [eraseCred] at htrace
      rw [htrace]
    · intro e he hc
      rcases List.mem_append.mp he with hmem | hmem
      · exact absurd hc (by simp [hnp123 e hmem])
      · rcases List.mem_append.mp hmem with hmem2 | hmem2
        · exact hpipes e hmem2 hc
        · exact absurd hc (by simp [nopipe_rest g branch sp dir sif s4 e hmem2])

/-- Witness for C1: two concrete runs differing only in the token agree on
result, state and erased trace, and the only piped event carries the first
token in the fixed credential format. -/
theorem c1_credential_noninterference_witness :
    (setup_and_push_repo pyGit "https://github.com/u/demo.git" "/w" "main" "tokA"
        "/s/app.py" false freshState).1 =
      (setup_and_push_repo pyGit "https://github.com/u/demo.git" "/w" "main" "tokB"
        "/s/app.py" false freshState).1 ∧
    (setup_and_push_repo pyGit "https://github.com/u/demo.git" "/w" "main" "tokA"
        "/s/app.py" false freshState).2.1 =
      (setup_and_push_repo pyGit "https://github.com/u/demo.git" "/w" "main" "tokB"
        "/s/app.py" false freshState).2.1 ∧
    eraseCred (setup_and_push_repo pyGit "https://github.com/u/demo.git" "/w" "main" "tokA"
        "/s/app.py" false freshState).2.2 =
      eraseCred (setup_and_push_repo pyGit "https://github.com/u/demo.git" "/w" "main" "tokB"
        "/s/app.py" false freshState).2.2 ∧
    ∀ e ∈ (setup_and_push_repo pyGit "https://github.com/u/demo.git" "/w" "main" "tokA"
        "/s/app.py" false freshState).2.2,
      isCredApprove e = true →
      e = Event.pipe ["git", "credential", "approve"] (credential_input "tokA") :=
  c1_credential_noninterference pyGit "https://github.com/u/demo.git" "/w" "main"
    "/s/app.py" false freshState "tokA" "tokB" (by decide) (by decide)
